import Mathlib

/-!
Shallow embedding of the RiByBooth photobooth session state machine and
collage layout geometry, translated from the repository's Python source
(`src/app/api/routes/session.py`, `src/app/config.py`,
`src/app/models/session.py`, `src/app/services/photo.py`, and the
monolithic `src/main.py`).

Conventions of the embedding:
- The module-level globals `current_session` / `active_sessions` are modelled
  as a single `Option PhotoSession` (the claims only concern the current
  session; `active_sessions` never holds a reachable second entry because
  every deletion targets `current_session`).
- FastAPI `HTTPException` raises are modelled as an `Except`-style error
  value paired with the (unmodified) controller state; in the source every
  `raise` occurs before any mutation of the session object, so returning the
  input state on error is exactly the Python semantics.
- Photo blobs (base64 strings) stay opaque `String`s.  Selected indices are
  Python `int`s and are modelled as `Int` (the source explicitly tests
  `idx < 0`).
-/

/-- Enumeration `LayoutType` from `src/app/models/session.py`. -/
inductive LayoutType where
  | double
  | quad
  | strip
deriving DecidableEq, Repr

/-- Enumeration `OrientationType` from `src/app/models/session.py`. -/
inductive OrientationType where
  | portrait
  | landscape
deriving DecidableEq, Repr

/-- Table `settings.capture_limits` from `src/app/config.py` (identical to
`CAPTURE_LIMITS` in `src/main.py`). -/
def capture_limits : LayoutType → Nat
  | .double => 4
  | .quad => 6
  | .strip => 12

/-- Table `settings.final_limits` from `src/app/config.py` (identical to
`FINAL_LIMITS` in `src/main.py`). -/
def final_limits : LayoutType → Nat
  | .double => 2
  | .quad => 4
  | .strip => 8

/-- Aggregate `PhotoSession` from `src/app/models/session.py` (the `template` field is
never read by any route and is omitted). -/
structure PhotoSession where
  session_id : String
  photos : List String := []
  selected_photos : List Int := []
  layout : LayoutType := .double
  orientation : OrientationType := .portrait
  capture_complete : Bool := false
  selection_complete : Bool := false
deriving DecidableEq, Repr

/-- The controller state: `current_session` plus the session it indexes in
`active_sessions` (`none` = no active session). -/
abbrev ControllerState := Option PhotoSession

/-- The `HTTPException`s raised by the session routes, tagged by which check
raised them (`detail` strings in `src/app/api/routes/session.py`). -/
inductive ApiError where
  /-- Detail "No active session" (404 / 400). -/
  | noActiveSession
  /-- Detail "Photo capture not complete yet" (400). -/
  | captureNotComplete
  /-- Detail "Photo selection not complete" (400). -/
  | selectionNotComplete
  /-- Detail "Must select exactly \x7bn\x7d photos" (400). -/
  | wrongCount (needed : Nat)
  /-- Detail "Invalid photo index" (400). -/
  | invalidIndex
deriving DecidableEq, Repr

/-- Response body of `POST /session/capture`
(`PhotoCaptureResponse` in `src/app/models/session.py`). -/
structure PhotoCaptureResponse where
  success : Bool
  photo_count : Nat
  capture_complete : Bool
  max_capture_photos : Nat
  final_photos_needed : Nat
  photo : String
deriving DecidableEq, Repr

/-- Response body of `GET /session/status`
(`SessionStatusResponse` in `src/app/models/session.py`). -/
structure SessionStatusResponse where
  session_id : Option String
  photo_count : Nat
  layout : Option LayoutType
  orientation : Option OrientationType
  max_capture_photos : Nat
  final_photos_needed : Nat
  capture_complete : Bool
  selection_complete : Bool
  selected_photos : List Int := []
  photos : List String := []
deriving DecidableEq, Repr

/-- Response body of `POST /session/finalize`
(`SessionFinalizeResponse`); the collage payload is represented by the list
of photo blobs handed to `create_collage` in selection order, together with
the layout/orientation it is composed under. -/
structure SessionFinalizeResponse where
  success : Bool
  filename : String
  collage_input : List String
  collage_layout : LayoutType
  collage_orientation : OrientationType
deriving DecidableEq, Repr

/-- Route `create_session` from `src/app/api/routes/session.py`: always succeeds,
allocates a fresh session with zero photos and cleared flags, and makes it
current (the generated uuid is passed in as `sid`). -/
def create_session (layout : LayoutType) (orientation : OrientationType)
    (sid : String) : ControllerState :=
  some { session_id := sid, layout := layout, orientation := orientation }

/-- The mutation `capture_photo` applies to the current session: append the
frame, then set `capture_complete` when `len(session.photos) >=
settings.capture_limits[session.layout]` (the flag is only ever set, never
cleared). -/
def capture_step (s : PhotoSession) (frame : String) : PhotoSession :=
  let photos := s.photos ++ [frame]
  { s with
    photos := photos
    capture_complete :=
      if capture_limits s.layout ≤ photos.length then true
      else s.capture_complete }

/-- Route `capture_photo` from `src/app/api/routes/session.py` (the monolithic
`capture_photo_direct` in `src/main.py` is line-for-line the same logic).
The camera frame is passed in as `frame`.  The only precondition checked by
the source is that a current session exists. -/
def capture_photo (st : ControllerState) (frame : String) :
    Except ApiError PhotoCaptureResponse × ControllerState :=
  match st with
  | none => (.error .noActiveSession, none)
  | some s =>
    let s' := capture_step s frame
    (.ok { success := true
           photo_count := s'.photos.length
           capture_complete := capture_limits s.layout ≤ s'.photos.length
           max_capture_photos := capture_limits s.layout
           final_photos_needed := final_limits s.layout
           photo := frame },
     some s')

/-- Route `select_photos` from `src/app/api/routes/session.py` (identical checks in
`src/main.py`): requires a current session with `capture_complete`, an index
list of exactly `final_limits[layout]` entries, and every index in
`[0, len(photos))`; it then records the indices verbatim and sets
`selection_complete`.  No check rejects duplicate indices and no check
consults `selection_complete`. -/
def select_photos (st : ControllerState) (selected_indices : List Int) :
    Except ApiError (List Int) × ControllerState :=
  match st with
  | none => (.error .noActiveSession, none)
  | some s =>
    if s.capture_complete = false then
      (.error .captureNotComplete, some s)
    else
      let needed := final_limits s.layout
      if selected_indices.length ≠ needed then
        (.error (.wrongCount needed), some s)
      else if selected_indices.any
          (fun idx => idx < 0 ∨ (s.photos.length : Int) ≤ idx) then
        (.error .invalidIndex, some s)
      else
        (.ok selected_indices,
         some { s with selected_photos := selected_indices
                       selection_complete := true })

/-- Route `finalize_session` from `src/app/api/routes/session.py`: requires a
current session with `selection_complete`, gathers `session.photos[i]` for
each selected index in selection order, composes and saves the collage
(filename generation is external and injected as `filename`), and then
deletes the session and clears `current_session`. -/
def finalize_session (st : ControllerState) (filename : String) :
    Except ApiError SessionFinalizeResponse × ControllerState :=
  match st with
  | none => (.error .noActiveSession, none)
  | some s =>
    if s.selection_complete = false then
      (.error .selectionNotComplete, some s)
    else
      (.ok { success := true
             filename := filename
             collage_input := s.selected_photos.map
               (fun i => s.photos.getD i.toNat "")
             collage_layout := s.layout
             collage_orientation := s.orientation },
       none)

/-- Route `get_session_status` from `src/app/api/routes/session.py` (identical to
`get_current_session_status` in `src/main.py`): a read-only snapshot; the
`photos` field carries the captured blobs only once `capture_complete` is
true, else the empty list. -/
def get_session_status (st : ControllerState) : SessionStatusResponse :=
  match st with
  | none =>
    { session_id := none
      photo_count := 0
      layout := none
      orientation := none
      max_capture_photos := 0
      final_photos_needed := 0
      capture_complete := false
      selection_complete := false }
  | some s =>
    { session_id := some s.session_id
      photo_count := s.photos.length
      layout := some s.layout
      orientation := some s.orientation
      max_capture_photos := capture_limits s.layout
      final_photos_needed := final_limits s.layout
      capture_complete := s.capture_complete
      selection_complete := s.selection_complete
      selected_photos := s.selected_photos
      photos := if s.capture_complete then s.photos else [] }

/-- Route `reset_session` from `src/app/api/routes/session.py`: unconditionally
destroys the current session. -/
def reset_session (_st : ControllerState) : ControllerState :=
  none

/-- A sequence of `capture_photo` calls threaded through the controller
state, one call per frame the camera returns. -/
def capture_n (st : ControllerState) (frames : List String) : ControllerState :=
  frames.foldl (fun st frame => (capture_photo st frame).2) st

/-- C6: The limit tables are the fixed mapping CaptureLimits = {Double 4,
Quad 6, Strip 12} and FinalLimits = {Double 2, Quad 4, Strip 8}, and for
every layout L, FinalLimits[L] ≤ CaptureLimits[L]. -/
theorem limit_tables_fixed_and_ordered :
    capture_limits .double = 4 ∧ capture_limits .quad = 6 ∧
    capture_limits .strip = 12 ∧
    final_limits .double = 2 ∧ final_limits .quad = 4 ∧
    final_limits .strip = 8 ∧
    ∀ L : LayoutType, final_limits L ≤ capture_limits L := by
  refine ⟨rfl, rfl, rfl, rfl, rfl, rfl, ?_⟩
  intro L
  cases L <;> decide

/-- Concrete session used by several witnesses: a Double/Portrait session
whose capture phase just completed (4 photos, `capture_complete = true`,
nothing selected yet). -/
def captureDoneSession : PhotoSession :=
  { session_id := "sid-done"
    photos := ["p0", "p1", "p2", "p3"]
    layout := .double
    orientation := .portrait
    capture_complete := true }

/-- Concrete session whose selection phase is also complete (indices `[0, 1]`
recorded, `selection_complete = true`). -/
def selectionDoneSession : PhotoSession :=
  { captureDoneSession with
    session_id := "sid-selected"
    selected_photos := [0, 1]
    selection_complete := true }

/-- C1 counterexample: on the concrete Double session that already holds its
full quota of 4 photos with `capture_complete = true`, `capture_photo`
does not fail — it succeeds and appends a fifth photo. -/
theorem capture_after_quota_succeeds_cex :
    (capture_photo (some captureDoneSession) "p4").1.isOk = true ∧
    (capture_photo (some captureDoneSession) "p4").2 =
      some { captureDoneSession with photos := ["p0", "p1", "p2", "p3", "p4"] } :=
  ⟨rfl, rfl⟩

/-- C1 (amended): `capture_photo` fails — with the no-active-session error —
exactly when there is no current session; whenever a session is active it
succeeds and appends the frame, regardless of the session's state flags (in
particular even after the capture quota is reached). -/
theorem capture_fails_only_without_session :
    (∀ frame, capture_photo none frame = (.error .noActiveSession, none)) ∧
    (∀ s frame,
      (capture_photo (some s) frame).1.isOk = true ∧
      (capture_photo (some s) frame).2 = some (capture_step s frame) ∧
      (capture_step s frame).photos = s.photos ++ [frame]) :=
  ⟨fun _ => rfl, fun _ _ => ⟨rfl, rfl, rfl⟩⟩

/-- C2: on a Double session with 4 photos and capture complete, the
duplicate selection `[0, 0]` has the required length 2 and every index in
range, so `select_photos` accepts it verbatim — no check rejects duplicate
indices (the spec requires them to be rejected). -/
theorem select_duplicate_indices_accepted :
    select_photos (some captureDoneSession) [0, 0] =
      (.ok [0, 0],
       some { captureDoneSession with
              selected_photos := [0, 0]
              selection_complete := true }) := by
  rfl

/-- C3 counterexample: on the concrete session whose selection is already
complete (`selected_photos = [0, 1]`, `selection_complete = true`), a second
`select_photos` call succeeds and overwrites the recorded indices with
`[2, 3]` instead of failing. -/
theorem select_overwrites_selection_cex :
    select_photos (some selectionDoneSession) [2, 3] =
      (.ok [2, 3],
       some { selectionDoneSession with
              selected_photos := [2, 3]
              selection_complete := true }) := by
  rfl

/-- C3 (amended): `select_photos` never consults `selection_complete`: for
any active session with capture complete, a correct index count and all
indices in range, the call succeeds and overwrites `selected_photos` with
the new indices — even when a selection was already recorded.  The
selected-indices sequence is not write-once. -/
theorem select_valid_always_overwrites (s : PhotoSession) (indices : List Int)
    (hcc : s.capture_complete = true)
    (hlen : indices.length = final_limits s.layout)
    (hrange : ∀ idx ∈ indices, 0 ≤ idx ∧ idx < (s.photos.length : Int)) :
    select_photos (some s) indices =
      (.ok indices,
       some { s with selected_photos := indices
                     selection_complete := true }) := by
  simp only [select_photos, hcc, hlen]
  simp
  exact hrange

/-- C3 amended-claim witness: the amended theorem applied to the concrete
already-selected session, overwriting `[0, 1]` with `[2, 3]`. -/
theorem select_valid_always_overwrites_witness :
    select_photos (some selectionDoneSession) [2, 3] =
      (.ok [2, 3],
       some { selectionDoneSession with
              selected_photos := [2, 3]
              selection_complete := true }) :=
  select_valid_always_overwrites selectionDoneSession [2, 3] rfl rfl
    (by decide)

/-- C5: a `select_photos` call on an active, capture-complete session with
the required index count but some index negative or `≥` the photo count
fails with the invalid-index error, and the controller state — hence the
session, its `selected_photos` and its `selection_complete` flag — is
returned unchanged. -/
theorem select_out_of_range_rejected (s : PhotoSession) (indices : List Int)
    (hcc : s.capture_complete = true)
    (hlen : indices.length = final_limits s.layout)
    (hbad : ∃ idx ∈ indices, idx < 0 ∨ (s.photos.length : Int) ≤ idx) :
    select_photos (some s) indices = (.error .invalidIndex, some s) := by
  obtain ⟨idx, hmem, hout⟩ := hbad
  simp only [select_photos, hcc, hlen]
  simp
  refine ⟨idx, hmem, ?_⟩
  intro h0
  rcases hout with h | h
  · omega
  · exact h

/-- C5 witness: selecting `[0, 7]` on the capture-complete 4-photo session
(index 7 is out of range) fails with the invalid-index error and leaves the
session untouched. -/
theorem select_out_of_range_rejected_witness :
    select_photos (some captureDoneSession) [0, 7] =
      (.error .invalidIndex, some captureDoneSession) :=
  select_out_of_range_rejected captureDoneSession [0, 7] rfl rfl
    ⟨7, by decide, by decide⟩

/-- Helper: `capture_n` on an active session is the plain fold of
`capture_step` over the frames (each `capture_photo` succeeds). -/
theorem capture_n_some (frames : List String) : ∀ s : PhotoSession,
    capture_n (some s) frames = some (frames.foldl capture_step s) := by
  induction frames with
  | nil => intro s; rfl
  | cons f fs ih => intro s; exact ih (capture_step s f)

/-- Helper: folding `capture_step` over a frame list, starting from a session
whose `capture_complete` flag agrees with the quota test on its photo count,
appends the frames, and leaves the flag equal to the quota test on the final
photo count (all other fields unchanged). -/
theorem capture_step_foldl (frames : List String) : ∀ s : PhotoSession,
    s.capture_complete = decide (capture_limits s.layout ≤ s.photos.length) →
    frames.foldl capture_step s =
      { s with
        photos := s.photos ++ frames
        capture_complete :=
          decide (capture_limits s.layout ≤ s.photos.length + frames.length) } := by
  induction frames with
  | nil =>
    intro s h
    simp only [List.foldl_nil, List.append_nil, List.length_nil, Nat.add_zero]
    rw [← h]
  | cons f fs ih =>
    intro s h
    have hinv : (capture_step s f).capture_complete =
        decide (capture_limits (capture_step s f).layout ≤
          (capture_step s f).photos.length) := by
      simp only [capture_step, List.length_append, List.length_singleton,
        List.length_cons, List.length_nil]
      by_cases hc : capture_limits s.layout ≤ s.photos.length + 1
      · simp [hc]
      · simp only [if_neg hc, h]
        rw [decide_eq_decide]
        omega
    rw [List.foldl_cons, ih (capture_step s f) hinv]
    simp only [capture_step, List.length_append, List.length_singleton,
      List.length_cons, List.length_nil]
    congr 1
    · simp
    · rw [decide_eq_decide]
      omega

/-- C4: starting from a freshly created session with layout `L`, after any
sequence of successful `capture_photo` calls the session's
`capture_complete` flag equals the quota test `CaptureLimits[L] ≤ number of
captures`: it is false after the creation and after each of the first
`CaptureLimits[L] − 1` captures, and becomes true exactly at the
`CaptureLimits[L]`-th capture (the photo count always matching the number of
calls). -/
theorem capture_complete_exactly_at_quota (L : LayoutType)
    (o : OrientationType) (sid : String) (frames : List String) :
    capture_n (create_session L o sid) frames =
      some { session_id := sid
             photos := frames
             selected_photos := []
             layout := L
             orientation := o
             capture_complete := decide (capture_limits L ≤ frames.length)
             selection_complete := false } := by
  have h0 : (false : Bool) = decide (capture_limits L ≤ ([] : List String).length) := by
    cases L <;> rfl
  rw [show create_session L o sid = some
      { session_id := sid, layout := L, orientation := o } from rfl,
    capture_n_some,
    capture_step_foldl frames { session_id := sid, layout := L, orientation := o } h0]
  simp

/-- C7: a successful `finalize_session` leaves no active session: the
resulting controller state is `none`, a second `finalize_session` issued on
it fails with the no-active-session error, and `get_session_status` returns
the empty snapshot (no session id, zero counts, cleared flags). -/
theorem finalize_destroys_session (st : ControllerState)
    (fn fn2 : String) (r : SessionFinalizeResponse) (st' : ControllerState)
    (h : finalize_session st fn = (.ok r, st')) :
    st' = none ∧
    finalize_session st' fn2 = (.error .noActiveSession, none) ∧
    get_session_status st' =
      { session_id := none
        photo_count := 0
        layout := none
        orientation := none
        max_capture_photos := 0
        final_photos_needed := 0
        capture_complete := false
        selection_complete := false } := by
  cases st with
  | none => simp [finalize_session] at h
  | some s =>
    by_cases hs : s.selection_complete = false
    · simp [finalize_session, hs] at h
    · simp only [finalize_session, if_neg hs, Prod.mk.injEq] at h
      obtain ⟨-, h2⟩ := h
      subst h2
      exact ⟨rfl, rfl, rfl⟩

/-- C7 witness: finalizing the concrete selection-complete session succeeds,
after which the state is `none`, a repeated finalize fails with the
no-active-session error, and the status snapshot is empty. -/
theorem finalize_destroys_session_witness :
    (none : ControllerState) = none ∧
    finalize_session (none : ControllerState) "again.jpg" =
      (.error .noActiveSession, none) ∧
    get_session_status (none : ControllerState) =
      { session_id := none
        photo_count := 0
        layout := none
        orientation := none
        max_capture_photos := 0
        final_photos_needed := 0
        capture_complete := false
        selection_complete := false } :=
  finalize_destroys_session (some selectionDoneSession) "collage.jpg"
    "again.jpg"
    { success := true
      filename := "collage.jpg"
      collage_input := ["p0", "p1"]
      collage_layout := .double
      collage_orientation := .portrait }
    none (by rfl)

/-- C10: the status snapshot carries the captured photo blobs only once the
session's `capture_complete` flag is true; while capture is still in
progress the `photos` field is the empty list even though the session holds
captured photos, and `photo_count` always reports the true photo count. -/
theorem status_photos_gated_by_capture_complete (s : PhotoSession) :
    (s.capture_complete = false → (get_session_status (some s)).photos = []) ∧
    (s.capture_complete = true → (get_session_status (some s)).photos = s.photos) ∧
    (get_session_status (some s)).photo_count = s.photos.length := by
  refine ⟨fun h => ?_, fun h => ?_, rfl⟩ <;> simp [get_session_status, h]

/-- Pixel dimensions of a decoded image (`img.width` / `img.height` in PIL). -/
structure ImgDim where
  width : Nat
  height : Nat
deriving DecidableEq, Repr

/-- Geometry computed by `PhotoService._create_double_layout`
(`src/app/services/photo.py`, identical arithmetic in the `double` branch of
`create_collage` in `src/main.py`): the two rescaled image sizes, the canvas
size, and the paste positions. -/
structure DoubleLayoutResult where
  scaled1 : ImgDim
  scaled2 : ImgDim
  canvas_width : Nat
  canvas_height : Nat
  pos1 : Nat × Nat
  pos2 : Nat × Nat
deriving DecidableEq, Repr

/-- Method `_create_double_layout` from `src/app/services/photo.py`.  Python
computes the rescaled dimension as `int(target * (w / h))` in floating
point; it is modelled here as the exact floor division `target * w / h`
over `Nat` (the two agree wherever the binary float quotient carries no
rounding error).  Inputs are the dimensions of the two decoded images;
faithful for images with positive width and height. -/
def create_double_layout (d1 d2 : ImgDim) (o : OrientationType) :
    DoubleLayoutResult :=
  if o = .landscape then
    let target_height := 600
    let w1 := target_height * d1.width / d1.height
    let w2 := target_height * d2.width / d2.height
    let gap := 20
    { scaled1 := ⟨w1, target_height⟩
      scaled2 := ⟨w2, target_height⟩
      canvas_width := w1 + w2 + gap * 3
      canvas_height := target_height + gap * 2
      pos1 := (gap, gap)
      pos2 := (w1 + gap * 2, gap) }
  else
    let target_width := 600
    let h1 := target_width * d1.height / d1.width
    let h2 := target_width * d2.height / d2.width
    let gap := 20
    { scaled1 := ⟨target_width, h1⟩
      scaled2 := ⟨target_width, h2⟩
      canvas_width := target_width + gap * 2
      canvas_height := h1 + h2 + gap * 3
      pos1 := (gap, gap)
      pos2 := (gap, h1 + gap * 2) }

/-- C8: for any two (non-degenerate) input images, the Double layout
rescales each image by its own aspect ratio to the fixed cross-axis target
of 600 px — height 600 in landscape (scaled width `⌊600·w/h⌋`), width 600 in
portrait (scaled height `⌊600·h/w⌋`) — and the canvas measures the sum of
the two scaled main-axis dimensions plus 3 gap units along the main axis and
the 600 px target plus 2 gap units along the cross axis, with gap = 20 px. -/
theorem double_layout_geometry (d1 d2 : ImgDim)
    (h1 : 0 < d1.width ∧ 0 < d1.height) (h2 : 0 < d2.width ∧ 0 < d2.height) :
    (let r := create_double_layout d1 d2 .landscape
     r.scaled1 = ⟨600 * d1.width / d1.height, 600⟩ ∧
     r.scaled2 = ⟨600 * d2.width / d2.height, 600⟩ ∧
     r.canvas_width = r.scaled1.width + r.scaled2.width + 3 * 20 ∧
     r.canvas_height = 600 + 2 * 20) ∧
    (let r := create_double_layout d1 d2 .portrait
     r.scaled1 = ⟨600, 600 * d1.height / d1.width⟩ ∧
     r.scaled2 = ⟨600, 600 * d2.height / d2.width⟩ ∧
     r.canvas_height = r.scaled1.height + r.scaled2.height + 3 * 20 ∧
     r.canvas_width = 600 + 2 * 20) := by
  refine ⟨⟨rfl, rfl, ?_, rfl⟩, ⟨rfl, rfl, ?_, rfl⟩⟩ <;>
    simp [create_double_layout]

/-- C8 witness: the Double geometry theorem at the concrete image pair
800×600 and 640×480 (both scale to 800×600 landscape / 600×450 portrait). -/
theorem double_layout_geometry_witness :
    (let r := create_double_layout ⟨800, 600⟩ ⟨640, 480⟩ .landscape
     r.scaled1 = ⟨600 * 800 / 600, 600⟩ ∧
     r.scaled2 = ⟨600 * 640 / 480, 600⟩ ∧
     r.canvas_width = r.scaled1.width + r.scaled2.width + 3 * 20 ∧
     r.canvas_height = 600 + 2 * 20) ∧
    (let r := create_double_layout ⟨800, 600⟩ ⟨640, 480⟩ .portrait
     r.scaled1 = ⟨600, 600 * 600 / 800⟩ ∧
     r.scaled2 = ⟨600, 600 * 480 / 640⟩ ∧
     r.canvas_height = r.scaled1.height + r.scaled2.height + 3 * 20 ∧
     r.canvas_width = 600 + 2 * 20) :=
  double_layout_geometry ⟨800, 600⟩ ⟨640, 480⟩ (by decide) (by decide)

/-- Geometry computed by a grid layout (`quad` / `strip`): the canvas size,
the uniform force-resize target applied to every image, the cell positions,
and the per-image placements `(resized size, paste position)` produced by
`zip(resized_images, positions)`. -/
structure GridLayoutResult where
  canvas_width : Nat
  canvas_height : Nat
  target : Nat × Nat
  positions : List (Nat × Nat)
  placements : List (ImgDim × (Nat × Nat))
deriving DecidableEq, Repr

/-- Method `_create_quad_layout` from `src/app/services/photo.py`: truncates
to the first 4 images, force-resizes each (aspect ratio not preserved) to
the orientation's target size, and computes the cell positions with the
row-major double loop `for row in range(rows): for col in range(cols)`. -/
def create_quad_layout (images : List ImgDim) (o : OrientationType) :
    GridLayoutResult :=
  let images := images.take 4
  let target : Nat × Nat := if o = .landscape then (400, 300) else (350, 250)
  let cols := if o = .landscape then 2 else 1
  let rows := if o = .landscape then 2 else 4
  let gap := if o = .landscape then 20 else 15
  let final_width := target.1 * cols + gap * (cols + 1)
  let final_height := target.2 * rows + gap * (rows + 1)
  let positions := (List.range rows).flatMap (fun row =>
    (List.range cols).map (fun col =>
      (gap + col * (target.1 + gap), gap + row * (target.2 + gap))))
  { canvas_width := final_width
    canvas_height := final_height
    target := target
    positions := positions
    placements :=
      (images.map fun _ => (⟨target.1, target.2⟩ : ImgDim)).zip positions }

/-- Quad branch of the monolithic `create_collage` in `src/main.py`: same
truncation and force-resize, but the cell positions are a hardcoded
4-element list (and the portrait canvas width is written `target + 2·gap`
rather than through the `cols` formula). -/
def create_collage_quad (images : List ImgDim) (o : OrientationType) :
    GridLayoutResult :=
  let images := images.take 4
  if o = .landscape then
    let target : Nat × Nat := (400, 300)
    let cols := 2
    let rows := 2
    let gap := 20
    let final_width := target.1 * cols + gap * (cols + 1)
    let final_height := target.2 * rows + gap * (rows + 1)
    let positions : List (Nat × Nat) :=
      [(gap, gap),
       (target.1 + gap * 2, gap),
       (gap, target.2 + gap * 2),
       (target.1 + gap * 2, target.2 + gap * 2)]
    { canvas_width := final_width
      canvas_height := final_height
      target := target
      positions := positions
      placements :=
        (images.map fun _ => (⟨target.1, target.2⟩ : ImgDim)).zip positions }
  else
    let target : Nat × Nat := (350, 250)
    let rows := 4
    let gap := 15
    let final_width := target.1 + gap * 2
    let final_height := target.2 * rows + gap * (rows + 1)
    let positions : List (Nat × Nat) :=
      [(gap, gap),
       (gap, target.2 + gap * 2),
       (gap, target.2 * 2 + gap * 3),
       (gap, target.2 * 3 + gap * 4)]
    { canvas_width := final_width
      canvas_height := final_height
      target := target
      positions := positions
      placements :=
        (images.map fun _ => (⟨target.1, target.2⟩ : ImgDim)).zip positions }

/-- C9: the two Quad-layout implementations are equivalent — for every list
of input images and either orientation, the loop-computed row-major
positions of `PhotoService._create_quad_layout` equal the hardcoded position
list of the monolithic `create_collage`, and the two produce identical
canvas dimensions, resize targets, and image placements. -/
theorem quad_layout_implementations_agree (images : List ImgDim)
    (o : OrientationType) :
    create_quad_layout images o = create_collage_quad images o := by
  cases o <;> rfl
